import Mathlib

/-!
Shallow embedding of the refinery shift-handover domain logic:
shift rotation, note classification, pending-item selection for the
handover reports, equipment range resolution, reading evaluation
(status and deviation), and reading-history trend analysis.

Numbers are modelled as rationals, JavaScript records as association
lists, and the in-memory stores as explicit state threaded through the
recording operation.  Impure inputs of the tools (current time, shift,
generated ids, locale-formatted date strings) are taken as parameters.
-/

set_option linter.unusedVariables false

/-! ### A model of JavaScript `Array.prototype.sort` (a stable comparison sort).
`r a b = true` means `a` may stay in front of `b` (the comparator returns `<= 0`). -/

def sortIns {α : Type} (r : α → α → Bool) (a : α) : List α → List α
  | [] => [a]
  | b :: l => if r a b then a :: b :: l else b :: sortIns r a l

def sortBy {α : Type} (r : α → α → Bool) : List α → List α
  | [] => []
  | a :: l => sortIns r a (sortBy r l)

/-! ### Shift clock (`log-shift-note-tool.ts`, `get-previous-shift-report-tool.ts`,
`query-shift-status-tool.ts`) -/

inductive ShiftType
  | day
  | afternoon
  | night
deriving DecidableEq

/-- `getPreviousShift` of `get-previous-shift-report-tool.ts` (lines 5-11). -/
def getPreviousShift : ShiftType → ShiftType
  | .day => .night
  | .afternoon => .day
  | .night => .afternoon

/-- `getNextShift` of `query-shift-status-tool.ts` (handover-summary half). -/
def getNextShift : ShiftType → ShiftType
  | .day => .afternoon
  | .afternoon => .night
  | .night => .day

/-- JS string value of a shift (`'day' | 'afternoon' | 'night'`). -/
def shiftTypeStr : ShiftType → String
  | .day => "day"
  | .afternoon => "afternoon"
  | .night => "night"

/-- `formatShiftName`: `shift.charAt(0).toUpperCase() + shift.slice(1) + ' Shift'`. -/
def formatShiftName (s : ShiftType) : String :=
  match (shiftTypeStr s).data with
  | [] => " Shift"
  | c :: rest => String.mk (c.toUpper :: rest) ++ " Shift"

/-- `getShiftTimeRange` (identical in both report tools). -/
def getShiftTimeRange : ShiftType → String
  | .day => "6:00 AM - 2:00 PM"
  | .afternoon => "2:00 PM - 10:00 PM"
  | .night => "10:00 PM - 6:00 AM"

/-- `getShiftEmoji` of the handover-summary tool. -/
def getShiftEmoji : ShiftType → String
  | .day => "☀️"
  | .afternoon => "🌆"
  | .night => "🌙"

/-! ### Shift notes (`log-shift-note-tool.ts`) -/

inductive NoteType
  | maintenance
  | alert
  | status
  | general
deriving DecidableEq

inductive PriorityLevel
  | low
  | medium
  | high
  | critical
deriving DecidableEq

/-- `ShiftNote`; the ISO `timestamp` string is modelled as an instant (`Nat`). -/
structure ShiftNote where
  id : String
  timestamp : Nat
  shift : ShiftType
  unit : String
  note : String
  type : NoteType
  priority : PriorityLevel
  resolved : Bool
deriving DecidableEq

/-- JS `String.prototype.toLowerCase`, at the character-list level. -/
def jsToLower (s : String) : List Char := s.data.map Char.toLower

/-- JS `lowerNote.includes(kw)`: `kw` occurs as a contiguous substring. -/
def strIncludes (s : List Char) (kw : String) : Bool := decide (kw.data <:+: s)

/-- The critical-keyword group of `determinePriority` (lines 148-153). -/
def hasCriticalKeyword (lowerNote : List Char) : Bool :=
  strIncludes lowerNote "critical" || strIncludes lowerNote "emergency" ||
  strIncludes lowerNote "shutdown" || strIncludes lowerNote "failure"

/-- The high-priority keyword group of `determinePriority` (lines 156-158). -/
def hasUrgentKeyword (lowerNote : List Char) : Bool :=
  strIncludes lowerNote "urgent" || strIncludes lowerNote "immediate" ||
  strIncludes lowerNote "alert"

/-- `determinePriority` of `log-shift-note-tool.ts` (lines 144-169): the keyword
groups are checked in fixed order, first match wins. -/
def determinePriority (note : String) (ty : NoteType) : PriorityLevel :=
  let lowerNote := jsToLower note
  if hasCriticalKeyword lowerNote then .critical
  else if hasUrgentKeyword lowerNote || ty == .alert then .high
  else if ty == .maintenance || strIncludes lowerNote "attention" then .medium
  else .low

/-! ### Pending-item selection for the reports.
The two report tools each define their own `getUnresolvedNotes`; they differ. -/

namespace PrevShiftReport

/-- `getUnresolvedNotes` of `get-previous-shift-report-tool.ts` (lines 66-71):
unresolved AND of type maintenance or alert.  No priority condition. -/
def getUnresolvedNotes (notes : List ShiftNote) : List ShiftNote :=
  notes.filter fun note =>
    !note.resolved && (note.type == .maintenance || note.type == .alert)

end PrevShiftReport

namespace HandoverSummary

/-- `getUnresolvedNotes` of `query-shift-status-tool.ts` (lines 216-221):
unresolved AND (type maintenance or alert OR priority high or critical). -/
def getUnresolvedNotes (notes : List ShiftNote) : List ShiftNote :=
  notes.filter fun note =>
    !note.resolved && (note.type == .maintenance || note.type == .alert ||
      note.priority == .high || note.priority == .critical)

end HandoverSummary

/-- The pending-item predicate as the SPEC words it (section 4.8): unresolved AND
(type in maintenance/alert OR priority in high/critical).  Spec-side definition,
for comparison with the two code-side selections above. -/
def specPendingPred (n : ShiftNote) : Bool :=
  !n.resolved && ((n.type == .maintenance || n.type == .alert) ||
    (n.priority == .high || n.priority == .critical))

/-! ### Report assembly shared helpers -/

/-- `groupNotesByType` (identical in both report tools). -/
structure GroupedNotes where
  maintenance : List ShiftNote
  alerts : List ShiftNote
  status : List ShiftNote
  general : List ShiftNote

def groupNotesByType (notes : List ShiftNote) : GroupedNotes :=
  { maintenance := notes.filter fun n => n.type == .maintenance
    alerts := notes.filter fun n => n.type == .alert
    status := notes.filter fun n => n.type == .status
    general := notes.filter fun n => n.type == .general }

/-- `notes.sort((a, b) => new Date(b.timestamp).getTime() - new Date(a.timestamp).getTime())`:
most recent first. -/
def sortNotesDesc (notes : List ShiftNote) : List ShiftNote :=
  sortBy (fun a b => b.timestamp ≤ a.timestamp) notes

namespace HandoverSummary

/-- `formatNotesList` of the handover-summary tool; `fmt` stands for the impure
`formatTimestamp` locale rendering. -/
def formatNotesList (fmt : Nat → String) (notes : List ShiftNote) : String :=
  if notes.length == 0 then "• None reported"
  else
    String.intercalate "\n" ((sortNotesDesc notes).map fun note =>
      let time := fmt note.timestamp
      let priorityFlag :=
        if note.priority == PriorityLevel.critical then " 🚨"
        else if note.priority == PriorityLevel.high then " ⚠️" else ""
      "• Unit " ++ note.unit ++ ": " ++ note.note ++ priorityFlag ++
        "\n  (Logged: " ++ time ++ ")")

/-- One action-item line of the handover summary (lines 311-317). -/
def actionItemLine (note : ShiftNote) : String :=
  let emoji :=
    if note.type == NoteType.maintenance then "🔧"
    else if note.type == NoteType.alert then "⚠️" else "📋"
  let priorityNote :=
    if note.priority == PriorityLevel.critical then " [CRITICAL]"
    else if note.priority == PriorityLevel.high then " [HIGH PRIORITY]" else ""
  emoji ++ " Unit " ++ note.unit ++ ": " ++ note.note ++ priorityNote ++ "\n"

/-- Lines 340-350 of the zero-notes branch: everything before the quiet-shift
marker line.  `dateStr` stands for the impure locale date. -/
def quietHeader (currentShift : ShiftType) (dateStr : String) : String :=
  let nextShift := getNextShift currentShift
  getShiftEmoji currentShift ++ " SHIFT HANDOVER SUMMARY\n"
    ++ "═══════════════════════════════════\n"
    ++ "From: " ++ formatShiftName currentShift ++ " (" ++ getShiftTimeRange currentShift ++ ")\n"
    ++ "To: " ++ formatShiftName nextShift ++ " (" ++ getShiftTimeRange nextShift ++ ")\n"
    ++ "Date: " ++ dateStr ++ "\n\n"
    ++ "═══════════════════════════════════\n\n"

/-- Lines 352-358 of the zero-notes branch: everything after the quiet-shift
marker line. -/
def quietTail (currentShift : ShiftType) : String :=
  let nextShift := getNextShift currentShift
  "No specific notes were logged during " ++ formatShiftName currentShift ++ ".\n"
    ++ "All units operating within normal parameters.\n"
    ++ "No maintenance, alerts, or status changes to report.\n\n"
    ++ "⏭️ No pending action items for " ++ formatShiftName nextShift ++ ".\n\n"
    ++ "═══════════════════════════════════\n"
    ++ "\n✅ Handover complete. Stay safe! 🛡️\n"
    ++ formatShiftName nextShift ++ " team, you're good to go! 👍"

/-- The zero-notes branch of the handover summary (lines 339-359): the "quiet
shift" rendering. -/
def quietSummary (currentShift : ShiftType) (dateStr : String) : String :=
  quietHeader currentShift dateStr
    ++ "✅ QUIET SHIFT - ALL SYSTEMS NORMAL\n\n"
    ++ quietTail currentShift

/-- The standard (non-empty) rendering of the handover summary (lines 261-336). -/
def standardSummary (fmt : Nat → String) (shiftNotesFiltered : List ShiftNote)
    (currentShift : ShiftType) (dateStr timeStr : String) : String :=
  let nextShift := getNextShift currentShift
  let grouped := groupNotesByType shiftNotesFiltered
  let unresolved := getUnresolvedNotes shiftNotesFiltered
  getShiftEmoji currentShift ++ " SHIFT HANDOVER SUMMARY\n"
    ++ "═══════════════════════════════════\n"
    ++ "From: " ++ formatShiftName currentShift ++ " (" ++ getShiftTimeRange currentShift ++ ")\n"
    ++ "To: " ++ formatShiftName nextShift ++ " (" ++ getShiftTimeRange nextShift ++ ")\n"
    ++ "Date: " ++ dateStr ++ "\n"
    ++ "Time: " ++ timeStr ++ "\n\n"
    ++ "═══════════════════════════════════\n\n"
    ++ "🔧 MAINTENANCE ACTIVITIES:\n"
    ++ (if grouped.maintenance.length > 0 then formatNotesList fmt grouped.maintenance ++ "\n\n"
        else "• No maintenance activities during this shift\n\n")
    ++ "⚠️ ALERTS & WARNINGS:\n"
    ++ (if grouped.alerts.length > 0 then formatNotesList fmt grouped.alerts ++ "\n\n"
        else "• No alerts reported - all systems normal\n\n")
    ++ "📊 STATUS UPDATES:\n"
    ++ (if grouped.status.length > 0 then formatNotesList fmt grouped.status ++ "\n\n"
        else "• No specific status updates logged\n\n")
    ++ (if grouped.general.length > 0 then
          "📋 GENERAL NOTES:\n" ++ formatNotesList fmt grouped.general ++ "\n\n" else "")
    ++ "⏭️ ACTION ITEMS FOR " ++ (formatShiftName nextShift).toUpper ++ ":\n"
    ++ (if unresolved.length > 0 then String.join (unresolved.map actionItemLine) ++ "\n"
        else "• No pending action items - routine operations\n\n")
    ++ "═══════════════════════════════════\n"
    ++ "📊 SHIFT STATISTICS:\n"
    ++ "• Total notes logged: " ++ toString shiftNotesFiltered.length ++ "\n"
    ++ "• Breakdown:\n"
    ++ "  - 🔧 Maintenance: " ++ toString grouped.maintenance.length ++ "\n"
    ++ "  - ⚠️ Alerts: " ++ toString grouped.alerts.length ++ "\n"
    ++ "  - 📊 Status Updates: " ++ toString grouped.status.length ++ "\n"
    ++ "  - 📋 General: " ++ toString grouped.general.length ++ "\n"
    ++ "• Pending for next shift: " ++ toString unresolved.length ++ "\n\n"
    ++ "═══════════════════════════════════\n"
    ++ "\n✅ Handover complete. Stay safe! 🛡️\n"
    ++ formatShiftName nextShift ++ " team, you're good to go! 👍"

/-- The `summary` string produced by `generateShiftHandoverSummaryTool.execute`:
the standard rendering, replaced by the quiet-shift rendering when the
summarized shift has no notes (line 339). -/
def generateSummary (fmt : Nat → String) (allNotes : List ShiftNote)
    (currentShift : ShiftType) (dateStr timeStr : String) : String :=
  let shiftNotesFiltered := allNotes.filter fun n => n.shift == currentShift
  if shiftNotesFiltered.length == 0 then quietSummary currentShift dateStr
  else standardSummary fmt shiftNotesFiltered currentShift dateStr timeStr

end HandoverSummary

/-! ### Equipment readings (`record-equipment-reading-tool` source file) -/

inductive EquipmentType
  | pump
  | finfan
  | heater
  | compressor
  | reactor
  | tower
  | exchanger
  | valve
deriving DecidableEq

inductive ParameterType
  | pressure
  | temperature
  | flow_rate
  | vibration
  | rpm
  | current
  | voltage
  | level
deriving DecidableEq

/-- JS string value of an equipment type. -/
def equipmentTypeStr : EquipmentType → String
  | .pump => "pump"
  | .finfan => "finfan"
  | .heater => "heater"
  | .compressor => "compressor"
  | .reactor => "reactor"
  | .tower => "tower"
  | .exchanger => "exchanger"
  | .valve => "valve"

/-- JS string value of a parameter. -/
def parameterTypeStr : ParameterType → String
  | .pressure => "pressure"
  | .temperature => "temperature"
  | .flow_rate => "flow_rate"
  | .vibration => "vibration"
  | .rpm => "rpm"
  | .current => "current"
  | .voltage => "voltage"
  | .level => "level"

inductive ReadingStatus
  | normal
  | warning
  | critical
deriving DecidableEq

/-- One range record `{ min, max, criticalMin, criticalMax, uom }`. -/
structure Range where
  min : ℚ
  max : ℚ
  criticalMin : ℚ
  criticalMax : ℚ
  uom : String
deriving DecidableEq

/-- `EquipmentReading` record; the ISO timestamp is modelled as an instant. -/
structure EquipmentReading where
  id : String
  timestamp : Nat
  shift : ShiftType
  equipmentId : String
  equipmentType : EquipmentType
  unit : String
  parameter : ParameterType
  value : ℚ
  uom : String
  normalMin : ℚ
  normalMax : ℚ
  criticalMin : ℚ
  criticalMax : ℚ
  status : ReadingStatus
  deviation : ℚ
  operator : Option String
deriving DecidableEq

/-- `getRangeKey`: template string of the equipment type and parameter joined by a dash. -/
def getRangeKey (equipmentType : EquipmentType) (parameter : ParameterType) : String :=
  equipmentTypeStr equipmentType ++ "-" ++ parameterTypeStr parameter

/-- `getEquipmentRangeKey`: template string of the equipment id and parameter joined by a dash. -/
def getEquipmentRangeKey (equipmentId : String) (parameter : ParameterType) : String :=
  equipmentId ++ "-" ++ parameterTypeStr parameter

/-- The `defaultRanges` table (lines 38-76), keyed by the literal strings of the
source (note `pump-flow`, `heater-flow`, `exchanger-flow`: these keys can
never be produced by `getRangeKey`, whose flow parameter prints as `flow_rate`). -/
def defaultRanges : List (String × Range) :=
  [("pump-pressure", { min := 50, max := 150, criticalMin := 30, criticalMax := 180, uom := "PSI" }),
   ("pump-flow", { min := 100, max := 500, criticalMin := 50, criticalMax := 600, uom := "GPM" }),
   ("pump-temperature", { min := 20, max := 80, criticalMin := 10, criticalMax := 100, uom := "°C" }),
   ("pump-vibration", { min := 0, max := 5, criticalMin := 0, criticalMax := 10, uom := "mm/s" }),
   ("pump-current", { min := 10, max := 50, criticalMin := 5, criticalMax := 60, uom := "A" }),
   ("compressor-pressure", { min := 100, max := 300, criticalMin := 80, criticalMax := 350, uom := "PSI" }),
   ("compressor-temperature", { min := 40, max := 120, criticalMin := 20, criticalMax := 150, uom := "°C" }),
   ("compressor-vibration", { min := 0, max := 7, criticalMin := 0, criticalMax := 12, uom := "mm/s" }),
   ("compressor-rpm", { min := 1000, max := 3000, criticalMin := 800, criticalMax := 3500, uom := "RPM" }),
   ("heater-temperature", { min := 200, max := 500, criticalMin := 150, criticalMax := 600, uom := "°C" }),
   ("heater-pressure", { min := 50, max := 200, criticalMin := 30, criticalMax := 250, uom := "PSI" }),
   ("heater-flow", { min := 50, max := 300, criticalMin := 30, criticalMax := 400, uom := "GPM" }),
   ("finfan-temperature", { min := 30, max := 80, criticalMin := 20, criticalMax := 100, uom := "°C" }),
   ("finfan-pressure", { min := 20, max := 100, criticalMin := 10, criticalMax := 120, uom := "PSI" }),
   ("finfan-rpm", { min := 500, max := 1500, criticalMin := 400, criticalMax := 1800, uom := "RPM" }),
   ("reactor-pressure", { min := 100, max := 500, criticalMin := 80, criticalMax := 600, uom := "PSI" }),
   ("reactor-temperature", { min := 150, max := 400, criticalMin := 100, criticalMax := 500, uom := "°C" }),
   ("reactor-level", { min := 30, max := 90, criticalMin := 10, criticalMax := 95, uom := "%" }),
   ("tower-pressure", { min := 20, max := 150, criticalMin := 10, criticalMax := 180, uom := "PSI" }),
   ("tower-temperature", { min := 80, max := 250, criticalMin := 50, criticalMax := 300, uom := "°C" }),
   ("tower-level", { min := 40, max := 85, criticalMin := 20, criticalMax := 95, uom := "%" }),
   ("exchanger-temperature", { min := 40, max := 150, criticalMin := 20, criticalMax := 180, uom := "°C" }),
   ("exchanger-pressure", { min := 30, max := 120, criticalMin := 20, criticalMax := 150, uom := "PSI" }),
   ("exchanger-flow", { min := 100, max := 400, criticalMin := 50, criticalMax := 500, uom := "GPM" })]

/-- `getDefaultRange`: table lookup with the hardcoded fallback band. -/
def getDefaultRange (equipmentType : EquipmentType) (parameter : ParameterType) : Range :=
  (defaultRanges.lookup (getRangeKey equipmentType parameter)).getD
    { min := 0, max := 100, criticalMin := 0, criticalMax := 150, uom := "units" }

/-- The `equipmentCustomRanges` record is modelled as an association list whose
first match wins; assignment prepends, giving last-write-wins per key. -/
def CustomRanges : Type := List (String × Range)

/-- `setEquipmentRange` (lines 116-123): store `ranges` under the equipment key. -/
def setEquipmentRange (custom : CustomRanges) (equipmentId : String)
    (parameter : ParameterType) (ranges : Range) : CustomRanges :=
  (getEquipmentRangeKey equipmentId parameter, ranges) :: custom

/-- `getEquipmentRange` (lines 104-113): instance override first, else type default. -/
def getEquipmentRange (custom : CustomRanges) (equipmentId : String)
    (equipmentType : EquipmentType) (parameter : ParameterType) : Range :=
  match List.lookup (getEquipmentRangeKey equipmentId parameter) custom with
  | some r => r
  | none => getDefaultRange equipmentType parameter

/-- `calculateStatus` (lines 130-134). -/
def calculateStatus (value normalMin normalMax criticalMin criticalMax : ℚ) : ReadingStatus :=
  if value < criticalMin ∨ value > criticalMax then .critical
  else if value < normalMin ∨ value > normalMax then .warning
  else .normal

/-- JS `Math.round`: round half toward positive infinity. -/
def jsRound (x : ℚ) : ℤ := ⌊x + 1 / 2⌋

/-- `calculateDeviation` (lines 136-141): distance from the normal-band midpoint
as a percentage of the band width, rounded to one decimal. -/
def calculateDeviation (value normalMin normalMax : ℚ) : ℚ :=
  let normalMid := (normalMin + normalMax) / 2
  let normalRange := normalMax - normalMin
  let deviation := |value - normalMid| / normalRange * 100
  (jsRound (deviation * 10) : ℚ) / 10

/-! ### Trend analysis (`analyzeReadingHistory`, lines 143-190) -/

/-- The history used for trend analysis: the last 10 readings for one
`(equipmentId, parameter)`, most recent first (lines 145-148). -/
def readingHistory (readings : List EquipmentReading) (equipmentId : String)
    (parameter : ParameterType) : List EquipmentReading :=
  ((sortBy (fun a b => b.timestamp ≤ a.timestamp)
      (readings.filter fun r => r.equipmentId == equipmentId && r.parameter == parameter)).take 10)

/-- Average of the values of a window, as written: sum over length.
An empty window yields the division of zero by zero (JS: NaN; here the total
rational division whose divisor is zero). -/
def windowAvg (w : List EquipmentReading) : ℚ :=
  (w.map (fun r => r.value)).sum / (w.length : ℚ)

/-- The recent window: first three entries of the history (line 155). -/
def recentWindow (history : List EquipmentReading) : List EquipmentReading :=
  history.take 3

/-- The older window: entries at indices 3 to 5 of the history (line 156). -/
def olderWindow (history : List EquipmentReading) : List EquipmentReading :=
  (history.drop 3).take 3

/-- The trend percentage of line 161: recent average against older average. -/
def trendOf (history : List EquipmentReading) : ℚ :=
  (windowAvg (recentWindow history) - windowAvg (olderWindow history))
    / windowAvg (olderWindow history) * 100

inductive TrendClass
  | stable
  | increasing
  | decreasing
deriving DecidableEq

/-- The branch taken by lines 167-175: an absolute trend under 5 is stable,
a trend above 5 is increasing, anything else falls into the decreasing branch. -/
def classifyTrend (trend : ℚ) : TrendClass :=
  if |trend| < 5 then .stable
  else if trend > 5 then .increasing
  else .decreasing

/-! ### The recording operation (`recordEquipmentReadingTool.execute`, lines 215-314) -/

/-- The tool input after zod parsing. -/
structure ReadingInput where
  equipmentId : String
  equipmentType : EquipmentType
  unit : String
  parameter : ParameterType
  value : ℚ
  uom : Option String
  normalMin : Option ℚ
  normalMax : Option ℚ
  operator : Option String

/-- The process-wide mutable state touched by the tool. -/
structure RecState where
  customRanges : CustomRanges
  equipmentReadings : List EquipmentReading

/-- `recordEquipmentReadingTool.execute`: resolves the range, persists an
override when BOTH explicit bounds are supplied, evaluates the reading and
appends it to the store.  The generated id, current instant and current shift
are impure and passed in. -/
def recordEquipmentReading (st : RecState) (inp : ReadingInput)
    (newId : String) (now : Nat) (shift : ShiftType) : RecState × EquipmentReading :=
  let equipmentRange := getEquipmentRange st.customRanges inp.equipmentId inp.equipmentType inp.parameter
  let finalUom := inp.uom.getD equipmentRange.uom
  let finalNormalMin := inp.normalMin.getD equipmentRange.min
  let finalNormalMax := inp.normalMax.getD equipmentRange.max
  let finalCriticalMin := equipmentRange.criticalMin
  let finalCriticalMax := equipmentRange.criticalMax
  let customRanges1 :=
    match inp.normalMin, inp.normalMax with
    | some nmin, some nmax =>
        setEquipmentRange st.customRanges inp.equipmentId inp.parameter
          { min := nmin, max := nmax, criticalMin := finalCriticalMin,
            criticalMax := finalCriticalMax, uom := finalUom }
    | _, _ => st.customRanges
  let status := calculateStatus inp.value finalNormalMin finalNormalMax finalCriticalMin finalCriticalMax
  let deviation := calculateDeviation inp.value finalNormalMin finalNormalMax
  let reading : EquipmentReading :=
    { id := newId, timestamp := now, shift := shift,
      equipmentId := inp.equipmentId, equipmentType := inp.equipmentType,
      unit := inp.unit, parameter := inp.parameter, value := inp.value,
      uom := finalUom, normalMin := finalNormalMin, normalMax := finalNormalMax,
      criticalMin := finalCriticalMin, criticalMax := finalCriticalMax,
      status := status, deviation := deviation, operator := inp.operator }
  ({ customRanges := customRanges1, equipmentReadings := st.equipmentReadings ++ [reading] },
   reading)

/-! ### Concrete inputs used by witnesses and counterexamples -/

/-- An unresolved general-type, high-priority note (concrete instance). -/
def c1Note : ShiftNote :=
  { id := "n1", timestamp := 0, shift := .day, unit := "General",
    note := "please hand the logbook to the next crew", type := .general,
    priority := .high, resolved := false }

/-- A concrete pressure reading for pump P-101 at a given instant and value. -/
def sampleReading (ts : Nat) (v : ℚ) : EquipmentReading :=
  { id := "r" ++ toString ts, timestamp := ts, shift := .day,
    equipmentId := "P-101", equipmentType := .pump, unit := "1",
    parameter := .pressure, value := v, uom := "PSI",
    normalMin := 50, normalMax := 150, criticalMin := 30, criticalMax := 180,
    status := .normal, deviation := 0, operator := none }

/-- A six-entry reading history, newest first: recent average 105, older average 100,
so the computed trend is exactly +5 percent. -/
def c2hist : List EquipmentReading :=
  [sampleReading 6 105, sampleReading 5 105, sampleReading 4 105,
   sampleReading 3 100, sampleReading 2 100, sampleReading 1 100]

/-- The empty recording state: no custom ranges, no stored readings. -/
def emptyRecState : RecState := { customRanges := [], equipmentReadings := [] }

/-- A reading submission for (P-101, pressure) carrying BOTH explicit bounds. -/
def c3inp1 : ReadingInput :=
  { equipmentId := "P-101", equipmentType := .pump, unit := "1", parameter := .pressure,
    value := 120, uom := none, normalMin := some 100, normalMax := some 140, operator := none }

/-- A later reading submission for (P-101, pressure) omitting both bounds. -/
def c3inp2 : ReadingInput :=
  { equipmentId := "P-101", equipmentType := .pump, unit := "1", parameter := .pressure,
    value := 130, uom := none, normalMin := none, normalMax := none, operator := none }

/-- A state already holding exactly two readings for (P-101, pressure). -/
def c9st : RecState :=
  { customRanges := [], equipmentReadings := [sampleReading 1 100, sampleReading 2 101] }

/-- A third reading submission for (P-101, pressure), no explicit bounds. -/
def c9inp : ReadingInput :=
  { equipmentId := "P-101", equipmentType := .pump, unit := "1", parameter := .pressure,
    value := 102, uom := none, normalMin := none, normalMax := none, operator := none }

/-- A reading submission supplying only `normalMax` (not `normalMin`). -/
def c10inp : ReadingInput :=
  { equipmentId := "P-101", equipmentType := .pump, unit := "1", parameter := .pressure,
    value := 120, uom := none, normalMin := none, normalMax := some 160, operator := none }

/-! ### Shared helper lemmas -/

theorem length_sortIns {α : Type} (r : α → α → Bool) (a : α) (l : List α) :
    (sortIns r a l).length = l.length + 1 := by
  induction l with
  | nil => rfl
  | cons b l ih =>
    simp only [sortIns]
    split <;> simp [ih]

theorem length_sortBy {α : Type} (r : α → α → Bool) (l : List α) :
    (sortBy r l).length = l.length := by
  induction l with
  | nil => rfl
  | cons a l ih => simp [sortBy, length_sortIns, ih]

theorem mem_sortIns {α : Type} (r : α → α → Bool) (a x : α) (l : List α) :
    x ∈ sortIns r a l ↔ x = a ∨ x ∈ l := by
  induction l with
  | nil => simp [sortIns]
  | cons b l ih =>
    simp only [sortIns]
    split
    · simp
    · simp only [List.mem_cons, ih]
      tauto

theorem mem_sortBy {α : Type} (r : α → α → Bool) (x : α) (l : List α) :
    x ∈ sortBy r l ↔ x ∈ l := by
  induction l with
  | nil => simp [sortBy]
  | cons a l ih => simp [sortBy, mem_sortIns, ih]

theorem infixStrLeft {pat : List Char} (a b : String) (h : pat <:+: a.data) :
    pat <:+: (a ++ b).data := by
  obtain ⟨s, t, hst⟩ := h
  exact ⟨s, t ++ b.data, by rw [String.data_append, ← hst]; simp⟩

theorem infixStrRight {pat : List Char} (a b : String) (h : pat <:+: b.data) :
    pat <:+: (a ++ b).data := by
  obtain ⟨s, t, hst⟩ := h
  exact ⟨a.data ++ s, t, by rw [String.data_append, ← hst]; simp⟩

/-! ## Claim theorems -/

theorem pendingPredAgree (n : ShiftNote) :
    (!n.resolved && (n.type == NoteType.maintenance || n.type == NoteType.alert ||
      n.priority == PriorityLevel.high || n.priority == PriorityLevel.critical))
      = specPendingPred n := by
  rcases n with ⟨_, _, _, _, _, ty, pr, r⟩
  cases r <;> cases ty <;> cases pr <;> rfl

/-- C1 (amended): for every note store and every target shift,
`generateHandoverSummary` selects its pending items from the notes of the
reported shift by the predicate unresolved AND (type in maintenance/alert OR
priority in high/critical); `getPreviousShiftReport`, however, selects only the
unresolved notes of type maintenance or alert, with no priority disjunct. -/
theorem c1_pending_selection (notes : List ShiftNote) (s : ShiftType) :
    (HandoverSummary.getUnresolvedNotes (notes.filter fun n => n.shift == s)
       = (notes.filter fun n => n.shift == s).filter specPendingPred)
  ∧ (PrevShiftReport.getUnresolvedNotes (notes.filter fun n => n.shift == s)
       = (notes.filter fun n => n.shift == s).filter fun n =>
           !n.resolved && (n.type == NoteType.maintenance || n.type == NoteType.alert)) := by
  refine ⟨?_, rfl⟩
  unfold HandoverSummary.getUnresolvedNotes
  exact List.filter_congr fun n _ => pendingPredAgree n

/-- C1 counterexample: an unresolved general-type high-priority note is selected
by the spec's pending predicate but not by `getPreviousShiftReport`'s
`getUnresolvedNotes`, so the two report shapes do not share one predicate. -/
theorem c1_counterexample :
    PrevShiftReport.getUnresolvedNotes ([c1Note].filter fun n => n.shift == ShiftType.day)
      ≠ ([c1Note].filter fun n => n.shift == ShiftType.day).filter specPendingPred := by
  decide

/-- C4: with nested bands criticalMin ≤ normalMin ≤ normalMax ≤ criticalMax, the
computed status is critical iff the value is strictly outside [criticalMin,
criticalMax], else warning iff strictly outside [normalMin, normalMax], else
normal; a value exactly at normalMax is normal, strictly between normalMax and
criticalMax is warning, and above criticalMax is critical. -/
theorem c4_status_bands (value normalMin normalMax criticalMin criticalMax : ℚ)
    (h1 : criticalMin ≤ normalMin) (h2 : normalMin ≤ normalMax) (h3 : normalMax ≤ criticalMax) :
    (calculateStatus value normalMin normalMax criticalMin criticalMax = ReadingStatus.critical
       ↔ (value < criticalMin ∨ value > criticalMax))
  ∧ (calculateStatus value normalMin normalMax criticalMin criticalMax = ReadingStatus.warning
       ↔ ((criticalMin ≤ value ∧ value ≤ criticalMax) ∧ (value < normalMin ∨ value > normalMax)))
  ∧ (calculateStatus value normalMin normalMax criticalMin criticalMax = ReadingStatus.normal
       ↔ (normalMin ≤ value ∧ value ≤ normalMax))
  ∧ calculateStatus normalMax normalMin normalMax criticalMin criticalMax = ReadingStatus.normal
  ∧ (normalMax < value → value < criticalMax →
       calculateStatus value normalMin normalMax criticalMin criticalMax = ReadingStatus.warning)
  ∧ (criticalMax < value →
       calculateStatus value normalMin normalMax criticalMin criticalMax = ReadingStatus.critical) := by
  have hmain : ∀ v : ℚ,
      (calculateStatus v normalMin normalMax criticalMin criticalMax = ReadingStatus.critical
        ↔ (v < criticalMin ∨ v > criticalMax))
    ∧ (calculateStatus v normalMin normalMax criticalMin criticalMax = ReadingStatus.warning
        ↔ ((criticalMin ≤ v ∧ v ≤ criticalMax) ∧ (v < normalMin ∨ v > normalMax)))
    ∧ (calculateStatus v normalMin normalMax criticalMin criticalMax = ReadingStatus.normal
        ↔ (normalMin ≤ v ∧ v ≤ normalMax)) := by
    intro v
    unfold calculateStatus
    split_ifs with hc hw
    · refine ⟨iff_of_true rfl hc, iff_of_false (by simp) ?_, iff_of_false (by simp) ?_⟩
      · rintro ⟨⟨ha, hb⟩, -⟩
        rcases hc with h | h
        · exact absurd ha (not_le.mpr h)
        · exact absurd hb (not_le.mpr h)
      · rintro ⟨ha, hb⟩
        rcases hc with h | h
        · linarith
        · linarith
    · have hcp := not_or.mp hc
      have hc1 : criticalMin ≤ v := not_lt.mp hcp.1
      have hc2 : v ≤ criticalMax := not_lt.mp hcp.2
      refine ⟨iff_of_false (by simp) hc, iff_of_true rfl ⟨⟨hc1, hc2⟩, hw⟩,
        iff_of_false (by simp) ?_⟩
      rintro ⟨ha, hb⟩
      rcases hw with h | h
      · linarith
      · linarith
    · have hwp := not_or.mp hw
      have hw1 : normalMin ≤ v := not_lt.mp hwp.1
      have hw2 : v ≤ normalMax := not_lt.mp hwp.2
      exact ⟨iff_of_false (by simp) hc, iff_of_false (by simp) (fun hn => hw hn.2),
        iff_of_true rfl ⟨hw1, hw2⟩⟩
  refine ⟨(hmain value).1, (hmain value).2.1, (hmain value).2.2, ?_, ?_, ?_⟩
  · exact (hmain normalMax).2.2.mpr ⟨h2, le_refl _⟩
  · intro ha hb
    exact (hmain value).2.1.mpr ⟨⟨by linarith, le_of_lt hb⟩, Or.inr ha⟩
  · intro ha
    exact (hmain value).1.mpr (Or.inr ha)

/-- C4 witness: value 10 in bands normal [0, 10], critical [-5, 15]. -/
theorem c4_status_bands_witness :
    ((calculateStatus 10 0 10 (-5) 15 = ReadingStatus.critical
       ↔ ((10:ℚ) < -5 ∨ (10:ℚ) > 15))
  ∧ (calculateStatus 10 0 10 (-5) 15 = ReadingStatus.warning
       ↔ (((-5:ℚ) ≤ 10 ∧ (10:ℚ) ≤ 15) ∧ ((10:ℚ) < 0 ∨ (10:ℚ) > 10)))
  ∧ (calculateStatus 10 0 10 (-5) 15 = ReadingStatus.normal
       ↔ ((0:ℚ) ≤ 10 ∧ (10:ℚ) ≤ 10))
  ∧ calculateStatus 10 0 10 (-5) 15 = ReadingStatus.normal
  ∧ ((10:ℚ) < 10 → (10:ℚ) < 15 → calculateStatus 10 0 10 (-5) 15 = ReadingStatus.warning)
  ∧ ((15:ℚ) < 10 → calculateStatus 10 0 10 (-5) 15 = ReadingStatus.critical)) :=
  c4_status_bands 10 0 10 (-5) 15 (by norm_num) (by norm_num) (by norm_num)

/-- C7: the previous-shift and next-shift maps are the two inverse rotations of
the fixed cycle day → afternoon → night → day. -/
theorem c7_shift_rotation :
    (∀ s : ShiftType, getNextShift (getPreviousShift s) = s)
  ∧ (∀ s : ShiftType, getPreviousShift (getNextShift s) = s)
  ∧ getNextShift ShiftType.day = ShiftType.afternoon
  ∧ getNextShift ShiftType.afternoon = ShiftType.night
  ∧ getNextShift ShiftType.night = ShiftType.day := by
  refine ⟨fun s => ?_, fun s => ?_, rfl, rfl, rfl⟩ <;> cases s <;> rfl

/-- C2 counterexample: a six-entry history with recent average 105 and older
average 100 has trend exactly +5 percent, yet the analysis takes the decreasing
branch, not the stable one. -/
theorem c2_counterexample :
    6 ≤ c2hist.length ∧ trendOf c2hist = 5
  ∧ classifyTrend (trendOf c2hist) = TrendClass.decreasing
  ∧ classifyTrend (trendOf c2hist) ≠ TrendClass.stable := by
  have h5 : trendOf c2hist = 5 := by
    simp [trendOf, windowAvg, recentWindow, olderWindow, c2hist, sampleReading]
    norm_num
  have hcls : classifyTrend (5:ℚ) = TrendClass.decreasing := by
    unfold classifyTrend
    rw [if_neg, if_neg]
    · norm_num
    · rw [abs_of_nonneg (by norm_num : (0:ℚ) ≤ 5)]
      norm_num
  refine ⟨by decide, h5, by rw [h5]; exact hcls, by rw [h5, hcls]; decide⟩

/-- C2 (amended): for a reading history of at least six entries whose computed
trend percentage is exactly +5.0 or exactly −5.0, the analysis classifies it in
the decreasing branch (the final else), not the stable branch: stability
requires a strictly smaller absolute trend. -/
theorem c2_boundary_not_stable (history : List EquipmentReading)
    (hlen : 6 ≤ history.length)
    (h : trendOf history = 5 ∨ trendOf history = -5) :
    classifyTrend (trendOf history) = TrendClass.decreasing := by
  rcases h with h | h <;> rw [h] <;> unfold classifyTrend
  · rw [if_neg, if_neg]
    · norm_num
    · rw [abs_of_nonneg (by norm_num : (0:ℚ) ≤ 5)]
      norm_num
  · rw [if_neg, if_neg]
    · norm_num
    · rw [abs_of_nonpos (by norm_num : (-5:ℚ) ≤ 0)]
      norm_num

/-- C2 witness: the amended classification applied at the concrete six-entry
history whose trend is exactly +5 percent. -/
theorem c2_boundary_not_stable_witness :
    classifyTrend (trendOf c2hist) = TrendClass.decreasing :=
  c2_boundary_not_stable c2hist (by decide)
    (Or.inl (by
      simp [trendOf, windowAvg, recentWindow, olderWindow, c2hist, sampleReading]
      norm_num))

theorem emergencyHasCriticalKeyword (note : String)
    (h : "emergency".data <:+: note.data) :
    hasCriticalKeyword (jsToLower note) = true := by
  have h3 := List.IsInfix.map Char.toLower h
  have h4 : "emergency".data.map Char.toLower = "emergency".data := by decide
  rw [h4] at h3
  unfold hasCriticalKeyword strIncludes jsToLower
  rw [decide_eq_true h3]
  simp

/-- C5: priority assignment follows the fixed first-match order of the source:
critical keywords, then urgent keywords or category alert, then category
maintenance or the attention keyword, else low; in particular any text
containing "emergency" yields priority critical. -/
theorem c5_priority_order (note : String) (ty : NoteType) :
    (determinePriority note ty = PriorityLevel.critical
       ↔ hasCriticalKeyword (jsToLower note) = true)
  ∧ (determinePriority note ty = PriorityLevel.high
       ↔ (hasCriticalKeyword (jsToLower note) = false
          ∧ (hasUrgentKeyword (jsToLower note) = true ∨ ty = NoteType.alert)))
  ∧ (determinePriority note ty = PriorityLevel.medium
       ↔ (hasCriticalKeyword (jsToLower note) = false
          ∧ hasUrgentKeyword (jsToLower note) = false ∧ ty ≠ NoteType.alert
          ∧ (ty = NoteType.maintenance ∨ strIncludes (jsToLower note) "attention" = true)))
  ∧ (determinePriority note ty = PriorityLevel.low
       ↔ (hasCriticalKeyword (jsToLower note) = false
          ∧ hasUrgentKeyword (jsToLower note) = false ∧ ty ≠ NoteType.alert
          ∧ ty ≠ NoteType.maintenance ∧ strIncludes (jsToLower note) "attention" = false))
  ∧ ("emergency".data <:+: note.data → determinePriority note ty = PriorityLevel.critical) := by
  simp only [determinePriority]
  split_ifs with hc hh hm
  · refine ⟨iff_of_true rfl hc, iff_of_false (by simp) ?_, iff_of_false (by simp) ?_,
      iff_of_false (by simp) ?_, fun _ => rfl⟩
    · rintro ⟨hf, -⟩
      rw [hc] at hf
      simp at hf
    · rintro ⟨hf, -⟩
      rw [hc] at hf
      simp at hf
    · rintro ⟨hf, -⟩
      rw [hc] at hf
      simp at hf
  · have hcf : hasCriticalKeyword (jsToLower note) = false := by simpa using hc
    have hor : hasUrgentKeyword (jsToLower note) = true ∨ ty = NoteType.alert := by
      simpa using hh
    refine ⟨iff_of_false (by simp) hc, iff_of_true rfl ⟨hcf, hor⟩,
      iff_of_false (by simp) ?_, iff_of_false (by simp) ?_,
      fun hemg => absurd (emergencyHasCriticalKeyword note hemg) hc⟩
    · rintro ⟨-, hu, hne, -⟩
      rcases hor with h | h
      · rw [hu] at h
        simp at h
      · exact hne h
    · rintro ⟨-, hu, hne, -⟩
      rcases hor with h | h
      · rw [hu] at h
        simp at h
      · exact hne h
  · have hcf : hasCriticalKeyword (jsToLower note) = false := by simpa using hc
    have hhf : (hasUrgentKeyword (jsToLower note) || ty == NoteType.alert) = false := by
      simpa using hh
    have hu : hasUrgentKeyword (jsToLower note) = false := (Bool.or_eq_false_iff.mp hhf).1
    have hne : ty ≠ NoteType.alert :=
      beq_eq_false_iff_ne.mp (Bool.or_eq_false_iff.mp hhf).2
    have hmor : ty = NoteType.maintenance ∨ strIncludes (jsToLower note) "attention" = true := by
      simpa using hm
    refine ⟨iff_of_false (by simp) hc, iff_of_false (by simp) ?_,
      iff_of_true rfl ⟨hcf, hu, hne, hmor⟩, iff_of_false (by simp) ?_,
      fun hemg => absurd (emergencyHasCriticalKeyword note hemg) hc⟩
    · rintro ⟨-, hor⟩
      rcases hor with h | h
      · rw [hu] at h
        simp at h
      · exact hne h
    · rintro ⟨-, -, -, hnm, hatt⟩
      rcases hmor with h | h
      · exact hnm h
      · rw [hatt] at h
        simp at h
  · have hcf : hasCriticalKeyword (jsToLower note) = false := by simpa using hc
    have hhf : (hasUrgentKeyword (jsToLower note) || ty == NoteType.alert) = false := by
      simpa using hh
    have hu : hasUrgentKeyword (jsToLower note) = false := (Bool.or_eq_false_iff.mp hhf).1
    have hne : ty ≠ NoteType.alert :=
      beq_eq_false_iff_ne.mp (Bool.or_eq_false_iff.mp hhf).2
    have hmf : (ty == NoteType.maintenance || strIncludes (jsToLower note) "attention") = false := by
      simpa using hm
    have hnm : ty ≠ NoteType.maintenance :=
      beq_eq_false_iff_ne.mp (Bool.or_eq_false_iff.mp hmf).1
    have hatt : strIncludes (jsToLower note) "attention" = false :=
      (Bool.or_eq_false_iff.mp hmf).2
    refine ⟨iff_of_false (by simp) hc, iff_of_false (by simp) ?_,
      iff_of_false (by simp) ?_, iff_of_true rfl ⟨hcf, hu, hne, hnm, hatt⟩,
      fun hemg => absurd (emergencyHasCriticalKeyword note hemg) hc⟩
    · rintro ⟨-, hor⟩
      rcases hor with h | h
      · rw [hu] at h
        simp at h
      · exact hne h
    · rintro ⟨-, -, -, hor⟩
      rcases hor with h | h
      · exact hnm h
      · rw [hatt] at h
        simp at h

/-- C5 witness: a note whose text contains "emergency" is classified critical. -/
theorem c5_priority_order_witness :
    determinePriority "emergency at pump 3" NoteType.general = PriorityLevel.critical :=
  (c5_priority_order "emergency at pump 3" NoteType.general).2.2.2.2 (by decide)

/-- C6: the computed deviation equals the rounded midpoint-distance percentage;
it is symmetric at the two band edges (both 50.0) and zero at the midpoint. -/
theorem c6_deviation_symmetry (normalMin normalMax v : ℚ) (h : normalMin < normalMax) :
    calculateDeviation v normalMin normalMax
      = (jsRound (|v - (normalMin + normalMax) / 2| / (normalMax - normalMin) * 100 * 10) : ℚ) / 10
  ∧ calculateDeviation normalMin normalMin normalMax
      = calculateDeviation normalMax normalMin normalMax
  ∧ calculateDeviation normalMin normalMin normalMax = 50
  ∧ calculateDeviation ((normalMin + normalMax) / 2) normalMin normalMax = 0 := by
  have hne : normalMax - normalMin ≠ 0 := sub_ne_zero.mpr (ne_of_gt h)
  have key : ∀ w : ℚ, |w - (normalMin + normalMax) / 2| = (normalMax - normalMin) / 2 →
      calculateDeviation w normalMin normalMax = 50 := by
    intro w hw
    simp only [calculateDeviation]
    rw [hw]
    have h500 : (normalMax - normalMin) / 2 / (normalMax - normalMin) * 100 * 10 = 500 := by
      field_simp
      ring
    rw [h500]
    norm_num [jsRound]
  have habs1 : |normalMin - (normalMin + normalMax) / 2| = (normalMax - normalMin) / 2 := by
    rw [abs_of_nonpos (by linarith)]
    ring
  have habs2 : |normalMax - (normalMin + normalMax) / 2| = (normalMax - normalMin) / 2 := by
    rw [abs_of_nonneg (by linarith)]
    ring
  have hmin50 := key normalMin habs1
  have hmax50 := key normalMax habs2
  refine ⟨rfl, hmin50.trans hmax50.symm, hmin50, ?_⟩
  simp only [calculateDeviation]
  rw [sub_self, abs_zero, zero_div, zero_mul, zero_mul]
  norm_num [jsRound]

/-- C6 witness at the band [0, 10] and value 7. -/
theorem c6_deviation_symmetry_witness :
    (calculateDeviation 7 0 10
       = (jsRound (|(7:ℚ) - (0 + 10) / 2| / (10 - 0) * 100 * 10) : ℚ) / 10
  ∧ calculateDeviation 0 0 10 = calculateDeviation 10 0 10
  ∧ calculateDeviation 0 0 10 = 50
  ∧ calculateDeviation ((0 + 10) / 2) 0 10 = 0) :=
  c6_deviation_symmetry 0 10 7 (by norm_num)

/-- C3: after one recordEquipmentReading call supplying both explicit bounds for
an (equipmentId, parameter), a subsequent call omitting both fields resolves its
normal band to the previously supplied bounds rather than the type default,
while the critical bounds are inherited from whatever default or override
existed before the first call. -/
theorem c3_override_persistence (st : RecState) (inp1 inp2 : ReadingInput)
    (id1 id2 : String) (t1 t2 : Nat) (s1 s2 : ShiftType) (a b : ℚ)
    (h1min : inp1.normalMin = some a) (h1max : inp1.normalMax = some b)
    (h2min : inp2.normalMin = none) (h2max : inp2.normalMax = none)
    (hid : inp2.equipmentId = inp1.equipmentId) (hpar : inp2.parameter = inp1.parameter) :
    (recordEquipmentReading (recordEquipmentReading st inp1 id1 t1 s1).1 inp2 id2 t2 s2).2.normalMin = a
  ∧ (recordEquipmentReading (recordEquipmentReading st inp1 id1 t1 s1).1 inp2 id2 t2 s2).2.normalMax = b
  ∧ (recordEquipmentReading (recordEquipmentReading st inp1 id1 t1 s1).1 inp2 id2 t2 s2).2.criticalMin
      = (getEquipmentRange st.customRanges inp1.equipmentId inp1.equipmentType inp1.parameter).criticalMin
  ∧ (recordEquipmentReading (recordEquipmentReading st inp1 id1 t1 s1).1 inp2 id2 t2 s2).2.criticalMax
      = (getEquipmentRange st.customRanges inp1.equipmentId inp1.equipmentType inp1.parameter).criticalMax := by
  have hstep1 : (recordEquipmentReading st inp1 id1 t1 s1).1.customRanges
      = (getEquipmentRangeKey inp1.equipmentId inp1.parameter,
         { min := a, max := b,
           criticalMin := (getEquipmentRange st.customRanges inp1.equipmentId inp1.equipmentType inp1.parameter).criticalMin,
           criticalMax := (getEquipmentRange st.customRanges inp1.equipmentId inp1.equipmentType inp1.parameter).criticalMax,
           uom := inp1.uom.getD (getEquipmentRange st.customRanges inp1.equipmentId inp1.equipmentType inp1.parameter).uom }) :: st.customRanges := by
    simp [recordEquipmentReading, h1min, h1max, setEquipmentRange]
  have hres : getEquipmentRange (recordEquipmentReading st inp1 id1 t1 s1).1.customRanges
      inp2.equipmentId inp2.equipmentType inp2.parameter
      = { min := a, max := b,
          criticalMin := (getEquipmentRange st.customRanges inp1.equipmentId inp1.equipmentType inp1.parameter).criticalMin,
          criticalMax := (getEquipmentRange st.customRanges inp1.equipmentId inp1.equipmentType inp1.parameter).criticalMax,
          uom := inp1.uom.getD (getEquipmentRange st.customRanges inp1.equipmentId inp1.equipmentType inp1.parameter).uom } := by
    rw [hstep1, hid, hpar]
    simp [getEquipmentRange, List.lookup]
  refine ⟨?_, ?_, ?_, ?_⟩
  · show inp2.normalMin.getD
        (getEquipmentRange (recordEquipmentReading st inp1 id1 t1 s1).1.customRanges
          inp2.equipmentId inp2.equipmentType inp2.parameter).min = a
    rw [hres, h2min]
    rfl
  · show inp2.normalMax.getD
        (getEquipmentRange (recordEquipmentReading st inp1 id1 t1 s1).1.customRanges
          inp2.equipmentId inp2.equipmentType inp2.parameter).max = b
    rw [hres, h2max]
    rfl
  · show (getEquipmentRange (recordEquipmentReading st inp1 id1 t1 s1).1.customRanges
        inp2.equipmentId inp2.equipmentType inp2.parameter).criticalMin
      = (getEquipmentRange st.customRanges inp1.equipmentId inp1.equipmentType inp1.parameter).criticalMin
    rw [hres]
  · show (getEquipmentRange (recordEquipmentReading st inp1 id1 t1 s1).1.customRanges
        inp2.equipmentId inp2.equipmentType inp2.parameter).criticalMax
      = (getEquipmentRange st.customRanges inp1.equipmentId inp1.equipmentType inp1.parameter).criticalMax
    rw [hres]

/-- C3 witness: the two-call sequence on the empty state for (P-101, pressure),
first supplying the bounds [100, 140], then omitting both. -/
theorem c3_override_persistence_witness :
    (recordEquipmentReading (recordEquipmentReading emptyRecState c3inp1 "r1" 1 ShiftType.day).1
        c3inp2 "r2" 2 ShiftType.day).2.normalMin = 100
  ∧ (recordEquipmentReading (recordEquipmentReading emptyRecState c3inp1 "r1" 1 ShiftType.day).1
        c3inp2 "r2" 2 ShiftType.day).2.normalMax = 140
  ∧ (recordEquipmentReading (recordEquipmentReading emptyRecState c3inp1 "r1" 1 ShiftType.day).1
        c3inp2 "r2" 2 ShiftType.day).2.criticalMin
      = (getEquipmentRange emptyRecState.customRanges c3inp1.equipmentId c3inp1.equipmentType c3inp1.parameter).criticalMin
  ∧ (recordEquipmentReading (recordEquipmentReading emptyRecState c3inp1 "r1" 1 ShiftType.day).1
        c3inp2 "r2" 2 ShiftType.day).2.criticalMax
      = (getEquipmentRange emptyRecState.customRanges c3inp1.equipmentId c3inp1.equipmentType c3inp1.parameter).criticalMax :=
  c3_override_persistence emptyRecState c3inp1 c3inp2 "r1" "r2" 1 2 ShiftType.day ShiftType.day
    100 140 rfl rfl rfl rfl rfl rfl

set_option maxRecDepth 20000 in
/-- C8: whenever the note store has no notes for the summarized shift, the
handover summary is the distinguished quiet-shift rendering: it contains the
fixed phrase "QUIET SHIFT - ALL SYSTEMS NORMAL" and, at the concrete date used
here, no statistics block; the operation is total, so no error is raised. -/
theorem c8_quiet_shift (fmt : Nat → String) (allNotes : List ShiftNote)
    (s : ShiftType) (dateStr timeStr : String)
    (hempty : allNotes.filter (fun n => n.shift == s) = []) :
    HandoverSummary.generateSummary fmt allNotes s dateStr timeStr
      = HandoverSummary.quietSummary s dateStr
  ∧ "QUIET SHIFT - ALL SYSTEMS NORMAL".data
      <:+: (HandoverSummary.generateSummary fmt allNotes s dateStr timeStr).data
  ∧ (dateStr = "Saturday, October 11, 2025" →
      ¬ ("SHIFT STATISTICS".data
          <:+: (HandoverSummary.generateSummary fmt allNotes s dateStr timeStr).data)) := by
  have hq : HandoverSummary.generateSummary fmt allNotes s dateStr timeStr
      = HandoverSummary.quietSummary s dateStr := by
    unfold HandoverSummary.generateSummary
    rw [hempty]
    rfl
  refine ⟨hq, ?_, ?_⟩
  · rw [hq]
    unfold HandoverSummary.quietSummary
    apply infixStrLeft
    apply infixStrRight
    decide
  · intro hd
    rw [hq, hd]
    cases s <;> decide

/-- C8 witness: the empty store, day shift, concrete date and time strings. -/
theorem c8_quiet_shift_witness :
    (HandoverSummary.generateSummary (fun _ => "") [] ShiftType.day
        "Saturday, October 11, 2025" "8:00 AM"
      = HandoverSummary.quietSummary ShiftType.day "Saturday, October 11, 2025")
  ∧ "QUIET SHIFT - ALL SYSTEMS NORMAL".data
      <:+: (HandoverSummary.generateSummary (fun _ => "") [] ShiftType.day
        "Saturday, October 11, 2025" "8:00 AM").data
  ∧ ("Saturday, October 11, 2025" = "Saturday, October 11, 2025" →
      ¬ ("SHIFT STATISTICS".data
          <:+: (HandoverSummary.generateSummary (fun _ => "") [] ShiftType.day
            "Saturday, October 11, 2025" "8:00 AM").data)) :=
  c8_quiet_shift (fun _ => "") [] ShiftType.day "Saturday, October 11, 2025" "8:00 AM" rfl

/-- C9: the at-least-3-points gate does not give the trend a usable divisor: the
trend history includes the reading stored by the current call, so with exactly
three readings for the (equipmentId, parameter) after the call the gate passes
while the older window (indices 3..5) is empty, making the older average the
division of a zero sum by a zero length; the division by that older average is
reached with a zero-length (and zero-sum) older window. -/
theorem c9_trend_zero_divisor (st : RecState) (inp : ReadingInput)
    (newId : String) (now : Nat) (s : ShiftType)
    (h2 : (st.equipmentReadings.filter fun r =>
            r.equipmentId == inp.equipmentId && r.parameter == inp.parameter).length = 2) :
    (readingHistory (recordEquipmentReading st inp newId now s).1.equipmentReadings
        inp.equipmentId inp.parameter).length = 3
  ∧ ¬ ((readingHistory (recordEquipmentReading st inp newId now s).1.equipmentReadings
        inp.equipmentId inp.parameter).length < 3)
  ∧ olderWindow (readingHistory (recordEquipmentReading st inp newId now s).1.equipmentReadings
        inp.equipmentId inp.parameter) = []
  ∧ ((olderWindow (readingHistory (recordEquipmentReading st inp newId now s).1.equipmentReadings
        inp.equipmentId inp.parameter)).map fun r => r.value).sum = 0
  ∧ (((olderWindow (readingHistory (recordEquipmentReading st inp newId now s).1.equipmentReadings
        inp.equipmentId inp.parameter)).length : ℚ)) = 0
  ∧ (recordEquipmentReading st inp newId now s).2
      ∈ readingHistory (recordEquipmentReading st inp newId now s).1.equipmentReadings
          inp.equipmentId inp.parameter := by
  have hreads : (recordEquipmentReading st inp newId now s).1.equipmentReadings
      = st.equipmentReadings ++ [(recordEquipmentReading st inp newId now s).2] := rfl
  have hmatch : ((recordEquipmentReading st inp newId now s).2.equipmentId == inp.equipmentId
      && ((recordEquipmentReading st inp newId now s).2.parameter == inp.parameter)) = true := by
    simp [recordEquipmentReading]
  have hfil : ((recordEquipmentReading st inp newId now s).1.equipmentReadings.filter fun r =>
        r.equipmentId == inp.equipmentId && r.parameter == inp.parameter)
      = (st.equipmentReadings.filter fun r =>
          r.equipmentId == inp.equipmentId && r.parameter == inp.parameter)
        ++ [(recordEquipmentReading st inp newId now s).2] := by
    rw [hreads, List.filter_append]
    congr 1
    simp [List.filter_cons, hmatch]
  have hsortlen : (sortBy (fun a b => b.timestamp ≤ a.timestamp)
      ((recordEquipmentReading st inp newId now s).1.equipmentReadings.filter fun r =>
        r.equipmentId == inp.equipmentId && r.parameter == inp.parameter)).length = 3 := by
    rw [length_sortBy, hfil]
    simp [h2]
  have hhist : readingHistory (recordEquipmentReading st inp newId now s).1.equipmentReadings
      inp.equipmentId inp.parameter
      = sortBy (fun a b => b.timestamp ≤ a.timestamp)
          ((recordEquipmentReading st inp newId now s).1.equipmentReadings.filter fun r =>
            r.equipmentId == inp.equipmentId && r.parameter == inp.parameter) := by
    unfold readingHistory
    exact List.take_of_length_le (by rw [hsortlen]; norm_num)
  have hlen3 : (readingHistory (recordEquipmentReading st inp newId now s).1.equipmentReadings
      inp.equipmentId inp.parameter).length = 3 := by
    rw [hhist]
    exact hsortlen
  have hold : olderWindow (readingHistory (recordEquipmentReading st inp newId now s).1.equipmentReadings
      inp.equipmentId inp.parameter) = [] := by
    unfold olderWindow
    have hdrop : (readingHistory (recordEquipmentReading st inp newId now s).1.equipmentReadings
        inp.equipmentId inp.parameter).drop 3 = [] := by
      apply List.drop_eq_nil_of_le
      rw [hlen3]
    rw [hdrop]
    rfl
  refine ⟨hlen3, by rw [hlen3]; norm_num, hold, by rw [hold]; rfl, by rw [hold]; simp, ?_⟩
  rw [hhist, mem_sortBy, hfil]
  exact List.mem_append_right _ (List.mem_singleton_self _)

/-- C9 witness: recording a third (P-101, pressure) reading on a store already
holding two readings for that pair. -/
theorem c9_trend_zero_divisor_witness :
    (readingHistory (recordEquipmentReading c9st c9inp "r3" 3 ShiftType.day).1.equipmentReadings
        c9inp.equipmentId c9inp.parameter).length = 3
  ∧ ¬ ((readingHistory (recordEquipmentReading c9st c9inp "r3" 3 ShiftType.day).1.equipmentReadings
        c9inp.equipmentId c9inp.parameter).length < 3)
  ∧ olderWindow (readingHistory (recordEquipmentReading c9st c9inp "r3" 3 ShiftType.day).1.equipmentReadings
        c9inp.equipmentId c9inp.parameter) = []
  ∧ ((olderWindow (readingHistory (recordEquipmentReading c9st c9inp "r3" 3 ShiftType.day).1.equipmentReadings
        c9inp.equipmentId c9inp.parameter)).map fun r => r.value).sum = 0
  ∧ (((olderWindow (readingHistory (recordEquipmentReading c9st c9inp "r3" 3 ShiftType.day).1.equipmentReadings
        c9inp.equipmentId c9inp.parameter)).length : ℚ)) = 0
  ∧ (recordEquipmentReading c9st c9inp "r3" 3 ShiftType.day).2
      ∈ readingHistory (recordEquipmentReading c9st c9inp "r3" 3 ShiftType.day).1.equipmentReadings
          c9inp.equipmentId c9inp.parameter :=
  c9_trend_zero_divisor c9st c9inp "r3" 3 ShiftType.day (by decide)

/-- C10: a call supplying exactly one of normalMin/normalMax leaves the custom
range registry completely unchanged, yet the reading is evaluated and stored
against the mixed band combining the supplied bound with the resolved
default/override value for the other bound. -/
theorem c10_single_bound_frame (st : RecState) (inp : ReadingInput)
    (newId : String) (now : Nat) (s : ShiftType)
    (hone : (inp.normalMin = none ∧ inp.normalMax ≠ none)
          ∨ (inp.normalMin ≠ none ∧ inp.normalMax = none)) :
    (recordEquipmentReading st inp newId now s).1.customRanges = st.customRanges
  ∧ (recordEquipmentReading st inp newId now s).2.normalMin
      = inp.normalMin.getD
          (getEquipmentRange st.customRanges inp.equipmentId inp.equipmentType inp.parameter).min
  ∧ (recordEquipmentReading st inp newId now s).2.normalMax
      = inp.normalMax.getD
          (getEquipmentRange st.customRanges inp.equipmentId inp.equipmentType inp.parameter).max
  ∧ (recordEquipmentReading st inp newId now s).2.status
      = calculateStatus inp.value
          (inp.normalMin.getD (getEquipmentRange st.customRanges inp.equipmentId inp.equipmentType inp.parameter).min)
          (inp.normalMax.getD (getEquipmentRange st.customRanges inp.equipmentId inp.equipmentType inp.parameter).max)
          (getEquipmentRange st.customRanges inp.equipmentId inp.equipmentType inp.parameter).criticalMin
          (getEquipmentRange st.customRanges inp.equipmentId inp.equipmentType inp.parameter).criticalMax
  ∧ (recordEquipmentReading st inp newId now s).2.deviation
      = calculateDeviation inp.value
          (inp.normalMin.getD (getEquipmentRange st.customRanges inp.equipmentId inp.equipmentType inp.parameter).min)
          (inp.normalMax.getD (getEquipmentRange st.customRanges inp.equipmentId inp.equipmentType inp.parameter).max)
  ∧ (recordEquipmentReading st inp newId now s).1.equipmentReadings
      = st.equipmentReadings ++ [(recordEquipmentReading st inp newId now s).2] := by
  refine ⟨?_, rfl, rfl, rfl, rfl, rfl⟩
  rcases hone with ⟨hmin, hmax⟩ | ⟨hmin, hmax⟩
  · simp [recordEquipmentReading, hmin]
  · rcases hmineq : inp.normalMin with _ | aa
    · exact absurd hmineq hmin
    · simp [recordEquipmentReading, hmineq, hmax]

/-- C10 witness: supplying only normalMax (160) for (P-101, pressure) on the
empty state. -/
theorem c10_single_bound_frame_witness :
    (recordEquipmentReading emptyRecState c10inp "r1" 1 ShiftType.day).1.customRanges
      = emptyRecState.customRanges
  ∧ (recordEquipmentReading emptyRecState c10inp "r1" 1 ShiftType.day).2.normalMin
      = c10inp.normalMin.getD
          (getEquipmentRange emptyRecState.customRanges c10inp.equipmentId c10inp.equipmentType c10inp.parameter).min
  ∧ (recordEquipmentReading emptyRecState c10inp "r1" 1 ShiftType.day).2.normalMax
      = c10inp.normalMax.getD
          (getEquipmentRange emptyRecState.customRanges c10inp.equipmentId c10inp.equipmentType c10inp.parameter).max
  ∧ (recordEquipmentReading emptyRecState c10inp "r1" 1 ShiftType.day).2.status
      = calculateStatus c10inp.value
          (c10inp.normalMin.getD (getEquipmentRange emptyRecState.customRanges c10inp.equipmentId c10inp.equipmentType c10inp.parameter).min)
          (c10inp.normalMax.getD (getEquipmentRange emptyRecState.customRanges c10inp.equipmentId c10inp.equipmentType c10inp.parameter).max)
          (getEquipmentRange emptyRecState.customRanges c10inp.equipmentId c10inp.equipmentType c10inp.parameter).criticalMin
          (getEquipmentRange emptyRecState.customRanges c10inp.equipmentId c10inp.equipmentType c10inp.parameter).criticalMax
  ∧ (recordEquipmentReading emptyRecState c10inp "r1" 1 ShiftType.day).2.deviation
      = calculateDeviation c10inp.value
          (c10inp.normalMin.getD (getEquipmentRange emptyRecState.customRanges c10inp.equipmentId c10inp.equipmentType c10inp.parameter).min)
          (c10inp.normalMax.getD (getEquipmentRange emptyRecState.customRanges c10inp.equipmentId c10inp.equipmentType c10inp.parameter).max)
  ∧ (recordEquipmentReading emptyRecState c10inp "r1" 1 ShiftType.day).1.equipmentReadings
      = emptyRecState.equipmentReadings
        ++ [(recordEquipmentReading emptyRecState c10inp "r1" 1 ShiftType.day).2] :=
  c10_single_bound_frame emptyRecState c10inp "r1" 1 ShiftType.day
    (Or.inl ⟨rfl, by decide⟩)
